import Mathlib

/-!
Verification of the room-booking and shift/task management service.

The definitions below are a shallow embedding of the server code:
entity records follow the drizzle table declarations in the shared
schema module, the storage operations follow `server/storage.ts`
(`MemStorage` and `DatabaseStorage`), the HTTP handlers follow the
Express routes in the routes module, and the Firestore triggers follow
the cloud-functions module.  Timestamps (JS `Date` values, compared
numerically in the source) are modelled as `Nat` epoch milliseconds;
enum-like strings (`status`, `role`, `type`, `category`) stay `String`,
matching the string comparisons in the source.
-/

set_option linter.unusedVariables false

namespace Mgmt

/-- Row of the `users` table. -/
structure User where
  id : Nat
  username : String
  password : String
  email : String
  phone : Option String
  fullName : String
  role : String
deriving Repr, DecidableEq

/-- Row of the `bookings` table.  `startTime`, `endTime`, `createdAt` are
timestamps; `qrCode` is nullable. -/
structure Booking where
  id : Nat
  userId : Nat
  roomId : Nat
  startTime : Nat
  endTime : Nat
  status : String
  qrCode : Option String
  createdAt : Nat
deriving Repr, DecidableEq

/-- Row of the `shifts` table.  `date` is the shift's calendar day. -/
structure Shift where
  id : Nat
  employeeId : Nat
  roomId : Nat
  date : Nat
  startTime : Nat
  endTime : Nat
  isActive : Bool
deriving Repr, DecidableEq

/-- Row of the `tasks` table.  `completedAt` is a nullable timestamp. -/
structure Task where
  id : Nat
  shiftId : Nat
  name : String
  category : String
  isCompleted : Bool
  completedAt : Option Nat
deriving Repr, DecidableEq

/-- Row of the `task_templates` table. -/
structure TaskTemplate where
  id : Nat
  name : String
  category : String
  isDefault : Bool
deriving Repr, DecidableEq

/-- Row of the `notifications` table. -/
structure Notification where
  id : Nat
  userId : Nat
  message : String
  type : String
  isRead : Bool
  createdAt : Nat
deriving Repr, DecidableEq

/-- Three-disjunct time-overlap test from the booking-creation route:
`(requestedStart >= bookingStart && requestedStart < bookingEnd) ||
 (requestedEnd > bookingStart && requestedEnd <= bookingEnd) ||
 (requestedStart <= bookingStart && requestedEnd >= bookingEnd)`. -/
def overlapCheck (requestedStart requestedEnd bookingStart bookingEnd : Nat) : Bool :=
  (decide (bookingStart ≤ requestedStart) && decide (requestedStart < bookingEnd)) ||
  (decide (bookingStart < requestedEnd) && decide (requestedEnd ≤ bookingEnd)) ||
  (decide (requestedStart ≤ bookingStart) && decide (bookingEnd ≤ requestedEnd))

/-- Per-booking conflict test from the booking-creation route: the overlap
disjunction conjoined with `booking.status !== "rejected" &&
booking.status !== "cancelled"`. -/
def bookingBlocks (requestedStart requestedEnd : Nat) (booking : Booking) : Bool :=
  overlapCheck requestedStart requestedEnd booking.startTime booking.endTime
    && booking.status != "rejected" && booking.status != "cancelled"

/-- `existingBookings.some (...)` conflict check performed by the
booking-creation route over the bookings already stored for the room. -/
def hasConflict (requestedStart requestedEnd : Nat) (existingBookings : List Booking) : Bool :=
  existingBookings.any (bookingBlocks requestedStart requestedEnd)

/-- Claim C1: for a candidate interval with `start < end` over bookings whose
intervals are valid, the route's three-disjunct conflict check reports a
conflict iff some booking `B` with status other than rejected/cancelled
satisfies `candidate.start < B.end ∧ candidate.end > B.start`; moreover a
candidate abutting a booking (`start = B.end` or `end = B.start`) never
counts that booking as a conflict. -/
theorem hasConflict_iff_interval_overlap (s e : Nat) (bs : List Booking)
    (hse : s < e) (hcv : ∀ b ∈ bs, b.startTime < b.endTime) :
    (hasConflict s e bs = true ↔
      ∃ b ∈ bs, b.status ≠ "rejected" ∧ b.status ≠ "cancelled" ∧
        s < b.endTime ∧ b.startTime < e)
    ∧ ∀ b ∈ bs, (s = b.endTime ∨ e = b.startTime) → bookingBlocks s e b = false := by
  constructor
  · simp only [hasConflict, List.any_eq_true, bookingBlocks, Bool.and_eq_true,
      bne_iff_ne, ne_eq, overlapCheck, Bool.or_eq_true, decide_eq_true_eq]
    constructor
    · rintro ⟨b, hb, ⟨hov, hr⟩, hc⟩
      have hv := hcv b hb
      exact ⟨b, hb, hr, hc, by omega, by omega⟩
    · rintro ⟨b, hb, hr, hc, h1, h2⟩
      exact ⟨b, hb, ⟨by omega, hr⟩, hc⟩
  · intro b hb habut
    have hv := hcv b hb
    have hov : overlapCheck s e b.startTime b.endTime = false := by
      rw [Bool.eq_false_iff]
      intro hcontra
      simp only [overlapCheck, Bool.or_eq_true, Bool.and_eq_true, decide_eq_true_eq] at hcontra
      omega
    simp [bookingBlocks, hov]

/-- Sample pending booking used to instantiate the conflict-check theorems. -/
def wBooking : Booking :=
  { id := 1, userId := 2, roomId := 3, startTime := 10, endTime := 20,
    status := "pending", qrCode := none, createdAt := 0 }

/-- Instantiation of C1 at a concrete abutting candidate: the slot
`[20, 30)` starting exactly at `wBooking`'s end is not blocked by it. -/
theorem hasConflict_iff_interval_overlap_witness :
    bookingBlocks 20 30 wBooking = false :=
  (hasConflict_iff_interval_overlap 20 30 [wBooking] (by decide) (by decide)).2
    wBooking (by decide) (Or.inl (by decide))

/-- Request body of `POST /api/bookings`: the client may supply a `userId`
field, but the route overwrites it with the authenticated user's id before
parsing (`{...req.body, userId: req.user?.id}`). -/
structure BookingBody where
  userId : Option Nat
  roomId : Nat
  startTime : Nat
  endTime : Nat
deriving Repr, DecidableEq

/-- Parsed `insertBookingSchema` value (the schema omits `id`, `createdAt`,
`qrCode` and `status`). -/
structure InsertBooking where
  userId : Nat
  roomId : Nat
  startTime : Nat
  endTime : Nat
deriving Repr, DecidableEq

/-- `insertBookingSchema.parse({...req.body, userId: req.user?.id})`: the
body's own `userId` is discarded and replaced by the actor's id. -/
def parsedBookingData (body : BookingBody) (actorId : Nat) : InsertBooking :=
  { userId := actorId, roomId := body.roomId,
    startTime := body.startTime, endTime := body.endTime }

/-- Store state threaded through the booking routes: users, bookings and
notifications plus the fresh-id counters of the storage layer. -/
structure St where
  users : List User
  bookings : List Booking
  notifications : List Notification
  nextBookingId : Nat
  nextNotificationId : Nat
deriving Repr, DecidableEq

/-- `storage.createNotification`: appends a record with `isRead := false`
and a fresh id. -/
def addNotification (st : St) (userId : Nat) (message : String)
    (ntype : String) (now : Nat) : St :=
  let n : Notification :=
    { id := st.nextNotificationId, userId := userId, message := message,
      type := ntype, isRead := false, createdAt := now }
  { st with notifications := st.notifications ++ [n],
            nextNotificationId := st.nextNotificationId + 1 }

/-- `storage.getBookingsByRoom`: bookings filtered by room id. -/
def getBookingsByRoom (bookings : List Booking) (roomId : Nat) : List Booking :=
  bookings.filter (fun b => b.roomId == roomId)

/-- `MemStorage.generateQRCode`. -/
def generateQRCode (bookingId : Nat) : String :=
  "booking-qr-" ++ toString bookingId

/-- `storage.createBooking`: persists the parsed data with a fresh id,
`status := "pending"`, a generated QR token and the creation time. -/
def createBookingRecord (data : InsertBooking) (id : Nat) (now : Nat) : Booking :=
  { id := id, userId := data.userId, roomId := data.roomId,
    startTime := data.startTime, endTime := data.endTime,
    status := "pending", qrCode := some (generateQRCode id), createdAt := now }

/-- Outcome of `POST /api/bookings`: created (201) or the conflict early
return (400 "Selected time slot is not available").  Each constructor
carries the store state at the moment the response is sent. -/
inductive BookingResult where
  | created (st : St) (booking : Booking)
  | conflictErr (st : St)
deriving Repr, DecidableEq

/-- Handler of `POST /api/bookings`: overwrite the body's `userId` with the
actor's id, check the requested slot against the room's existing bookings,
and only past that check persist the booking, attach the externally
generated QR data URL, and write the supervisor and owner notifications. -/
def createBookingHandler (st : St) (body : BookingBody) (actorId : Nat)
    (qrDataUrl : String) (now : Nat) : BookingResult :=
  let bookingData := parsedBookingData body actorId
  let existingBookings := getBookingsByRoom st.bookings bookingData.roomId
  if hasConflict bookingData.startTime bookingData.endTime existingBookings then
    BookingResult.conflictErr st
  else
    let booking := createBookingRecord bookingData st.nextBookingId now
    let st1 : St := { st with bookings := st.bookings ++ [booking],
                              nextBookingId := st.nextBookingId + 1 }
    let updatedBooking := { booking with qrCode := some qrDataUrl }
    let replaced := st1.bookings.map (fun b => if b.id == booking.id then updatedBooking else b)
    let st2 : St := { st1 with bookings := replaced }
    let supervisors := st2.users.filter (fun u => u.role == "supervisor")
    let st3 := supervisors.foldl (fun acc u =>
      addNotification acc u.id
        ("New booking #" ++ toString booking.id ++ " requires approval")
        "booking" now) st2
    let st4 := addNotification st3 bookingData.userId
      ("Your booking #" ++ toString booking.id ++ " has been created and is pending approval")
      "booking" now
    BookingResult.created st4 updatedBooking

/-- Claim C2: when the candidate slot conflicts with the room's existing
bookings, `POST /api/bookings` returns the Conflict error and the store is
exactly the input store: no booking and no notification was written. -/
theorem createBooking_conflict_writes_nothing (st : St) (body : BookingBody)
    (actorId : Nat) (qrDataUrl : String) (now : Nat)
    (h : hasConflict body.startTime body.endTime
          (getBookingsByRoom st.bookings body.roomId) = true) :
    createBookingHandler st body actorId qrDataUrl now = BookingResult.conflictErr st := by
  simp [createBookingHandler, parsedBookingData, h]

/-- Store holding one pending booking `[10, 20)` in room 3. -/
def wStConflict : St :=
  { users := [], bookings := [wBooking], notifications := [],
    nextBookingId := 2, nextNotificationId := 1 }

/-- Overlapping request for room 3 used to instantiate C2. -/
def wBodyConflict : BookingBody :=
  { userId := none, roomId := 3, startTime := 15, endTime := 25 }

/-- Instantiation of C2: requesting `[15, 25)` against the stored booking
`[10, 20)` is rejected and the store is unchanged. -/
theorem createBooking_conflict_writes_nothing_witness :
    hasConflict wBodyConflict.startTime wBodyConflict.endTime
        (getBookingsByRoom wStConflict.bookings wBodyConflict.roomId) = true ∧
    createBookingHandler wStConflict wBodyConflict 7 "qr-url" 5
      = BookingResult.conflictErr wStConflict :=
  ⟨by decide,
   createBooking_conflict_writes_nothing wStConflict wBodyConflict 7 "qr-url" 5 (by decide)⟩

/-- Claim C10: the booking persisted by `POST /api/bookings` is owned by the
authenticated actor, and the handler's outcome is independent of any
`userId` supplied in the request body. -/
theorem createBooking_owner_is_actor (st : St) (body : BookingBody) (actorId : Nat)
    (qrDataUrl : String) (now : Nat) (st2 : St) (b : Booking)
    (h : createBookingHandler st body actorId qrDataUrl now = BookingResult.created st2 b) :
    b.userId = actorId ∧
      ∀ u2 : Option Nat,
        createBookingHandler st { body with userId := u2 } actorId qrDataUrl now
          = createBookingHandler st body actorId qrDataUrl now := by
  refine ⟨?_, fun u2 => rfl⟩
  rw [createBookingHandler] at h
  split at h
  · exact absurd h (by simp)
  · rw [BookingResult.created.injEq] at h
    rw [← h.2]
    rfl

/-- Empty store used to instantiate C10. -/
def wStEmpty : St :=
  { users := [], bookings := [], notifications := [],
    nextBookingId := 1, nextNotificationId := 1 }

/-- Request body that tries to claim user 99 as the booking owner. -/
def wBodySpoof : BookingBody :=
  { userId := some 99, roomId := 3, startTime := 10, endTime := 20 }

/-- Booking actually persisted for actor 7 from `wBodySpoof`. -/
def wBookingOwned : Booking :=
  { id := 1, userId := 7, roomId := 3, startTime := 10, endTime := 20,
    status := "pending", qrCode := some "q", createdAt := 0 }

/-- Notification written to actor 7 by the successful booking below. -/
def wNotifPendingApproval : Notification :=
  { id := 1, userId := 7,
    message := "Your booking #1 has been created and is pending approval",
    type := "booking", isRead := false, createdAt := 0 }

/-- Store after actor 7 successfully books via `wBodySpoof`. -/
def wStAfterBooking : St :=
  { users := [], bookings := [wBookingOwned],
    notifications := [wNotifPendingApproval],
    nextBookingId := 2, nextNotificationId := 2 }

/-- Instantiation of C10: although the body claims user 99, the persisted
booking belongs to actor 7, and the body's `userId` field is irrelevant. -/
theorem createBooking_owner_is_actor_witness :
    wBookingOwned.userId = 7 ∧
      ∀ u2 : Option Nat,
        createBookingHandler wStEmpty { wBodySpoof with userId := u2 } 7 "q" 0
          = createBookingHandler wStEmpty wBodySpoof 7 "q" 0 :=
  createBooking_owner_is_actor wStEmpty wBodySpoof 7 "q" 0 wStAfterBooking wBookingOwned (by decide)

/-- `Partial<Task>` update object as passed to `storage.updateTask`: a field
set to `none` is absent from the object.  The checklist route always sends
both `isCompleted` and `completedAt`. -/
structure TaskUpdate where
  isCompleted : Option Bool
  completedAt : Option (Option Nat)
deriving Repr, DecidableEq

/-- Object-spread semantics of `{...task, ...taskData}`: fields present in
the update replace the task's fields. -/
def applyTaskUpdate (t : Task) (upd : TaskUpdate) : Task :=
  { t with isCompleted := upd.isCompleted.getD t.isCompleted,
           completedAt := upd.completedAt.getD t.completedAt }

/-- JS truthiness of the possibly-absent `taskData.isCompleted`. -/
def truthy (b : Option Bool) : Bool := b.getD false

/-- `DatabaseStorage.updateTask` (the storage the server exports): copies
`taskData` and, when `taskData.isCompleted` is truthy, overrides
`completedAt` with the current time before applying the update. -/
def dbUpdateTask (t : Task) (upd : TaskUpdate) (now : Nat) : Task :=
  let updateData := if truthy upd.isCompleted
    then { upd with completedAt := some (some now) }
    else upd
  applyTaskUpdate t updateData

/-- `MemStorage.updateTask`: spreads the update over the task but then
forces `completedAt` to the current time when `taskData.isCompleted` is
truthy and to the task's previous `completedAt` otherwise. -/
def memUpdateTask (t : Task) (upd : TaskUpdate) (now : Nat) : Task :=
  { applyTaskUpdate t upd with
    completedAt := if truthy upd.isCompleted then some now else t.completedAt }

/-- Outcome of `POST /api/checklist`: the updated task store and task, or
the 404 / 403 early returns. -/
inductive ChecklistResult where
  | ok (tasks : List Task) (task : Task)
  | notFound
  | forbidden
deriving Repr, DecidableEq

/-- Handler of `POST /api/checklist`: look up the task, check that the
task's shift belongs to the acting employee, then call
`storage.updateTask(taskId, { isCompleted, completedAt: isCompleted ? new
Date() : null })` on the exported `DatabaseStorage`.  `now` is the route's
`new Date()` and `dbNow` the one taken inside the storage layer. -/
def checklistHandler (tasks : List Task) (shifts : List Shift)
    (actorId taskId : Nat) (isCompleted : Bool) (now dbNow : Nat) : ChecklistResult :=
  match tasks.find? (fun t => t.id == taskId) with
  | none => ChecklistResult.notFound
  | some task =>
    match shifts.find? (fun s => s.id == task.shiftId) with
    | none => ChecklistResult.forbidden
    | some shift =>
      if shift.employeeId != actorId then ChecklistResult.forbidden
      else
        let upd : TaskUpdate :=
          { isCompleted := some isCompleted,
            completedAt := some (if isCompleted then some now else none) }
        let updated := dbUpdateTask task upd dbNow
        ChecklistResult.ok
          (tasks.map (fun t => if t.id == taskId then updated else t)) updated

/-- Claim C3: after every successful checklist toggle the stored task has
the requested `isCompleted` value, and its `completedAt` is non-null iff the
task is completed: toggling to true stamps the storage-layer time, toggling
to false clears the field to null. -/
theorem checklist_completedAt_iff_isCompleted (tasks : List Task) (shifts : List Shift)
    (actorId taskId : Nat) (isCompleted : Bool) (now dbNow : Nat)
    (tasks2 : List Task) (t2 : Task)
    (h : checklistHandler tasks shifts actorId taskId isCompleted now dbNow
          = ChecklistResult.ok tasks2 t2) :
    t2.isCompleted = isCompleted ∧ (t2.completedAt ≠ none ↔ isCompleted = true) ∧
      (isCompleted = true → t2.completedAt = some dbNow) ∧
      (isCompleted = false → t2.completedAt = none) := by
  rw [checklistHandler] at h
  split at h
  · exact absurd h (by simp)
  · split at h
    · exact absurd h (by simp)
    · split at h
      · exact absurd h (by simp)
      · simp only [ChecklistResult.ok.injEq] at h
        rw [← h.2]
        cases isCompleted <;>
          simp [dbUpdateTask, truthy, applyTaskUpdate]

/-- Completed task used to instantiate C3 (toggling it back off). -/
def wTaskDone : Task :=
  { id := 4, shiftId := 6, name := "Empty trash bins", category := "cleaning",
    isCompleted := true, completedAt := some 50 }

/-- Shift of employee 9 owning `wTaskDone`. -/
def wShiftOfTask : Shift :=
  { id := 6, employeeId := 9, roomId := 3, date := 1, startTime := 10,
    endTime := 20, isActive := true }

/-- Instantiation of C3: employee 9 toggles the completed task back to
incomplete and its `completedAt` is cleared to null. -/
theorem checklist_completedAt_iff_isCompleted_witness :
    ({ wTaskDone with isCompleted := false, completedAt := none } : Task).isCompleted = false ∧
      (({ wTaskDone with isCompleted := false, completedAt := none } : Task).completedAt ≠ none
        ↔ false = true) ∧
      (false = true →
        ({ wTaskDone with isCompleted := false, completedAt := none } : Task).completedAt = some 99) ∧
      (false = false →
        ({ wTaskDone with isCompleted := false, completedAt := none } : Task).completedAt = none) :=
  checklist_completedAt_iff_isCompleted [wTaskDone] [wShiftOfTask] 9 4 false 98 99
    [{ wTaskDone with isCompleted := false, completedAt := none }]
    { wTaskDone with isCompleted := false, completedAt := none } (by decide)

/-- `MemStorage.getNotificationsByUser`: filter by recipient, then
`sort((a, b) => b.createdAt - a.createdAt)`, i.e. newest first. -/
def memGetNotificationsByUser (userId : Nat) (notifs : List Notification) : List Notification :=
  List.insertionSort (fun a b => b.createdAt ≤ a.createdAt)
    (notifs.filter (fun n => n.userId == userId))

/-- `DatabaseStorage.getNotificationsByUser` (the storage the server
exports): filter by recipient and `orderBy(notifications.createdAt)`,
which in drizzle is ascending order, i.e. oldest first. -/
def dbGetNotificationsByUser (userId : Nat) (notifs : List Notification) : List Notification :=
  List.insertionSort (fun a b => a.createdAt ≤ b.createdAt)
    (notifs.filter (fun n => n.userId == userId))

/-- Notification for user 7 created at time 1. -/
def wNotifOld : Notification :=
  { id := 1, userId := 7, message := "old", type := "booking",
    isRead := false, createdAt := 1 }

/-- Notification for user 7 created at time 2. -/
def wNotifNew : Notification :=
  { id := 2, userId := 7, message := "new", type := "booking",
    isRead := false, createdAt := 2 }

/-- Claim C4 fails on the deployed code: with two notifications for user 7
created at times 1 and 2, `DatabaseStorage.getNotificationsByUser` (the
exported storage used by `GET /api/notifications`) returns them oldest
first, while the claimed newest-first order — which `MemStorage` does
produce — would list the `createdAt = 2` record first. -/
theorem dbGetNotificationsByUser_oldest_first :
    dbGetNotificationsByUser 7 [wNotifOld, wNotifNew] = [wNotifOld, wNotifNew] ∧
    memGetNotificationsByUser 7 [wNotifOld, wNotifNew] = [wNotifNew, wNotifOld] ∧
    ([wNotifOld, wNotifNew] : List Notification) ≠ [wNotifNew, wNotifOld] := by
  decide

/-- Outcome of `PUT /api/notifications/:id/read`. -/
inductive NotifReadResult where
  | ok (notifs : List Notification) (notification : Notification)
  | notFound
deriving Repr, DecidableEq

/-- Handler of `PUT /api/notifications/:id/read`: calls
`storage.updateNotification(notificationId, { isRead: true })` and returns
404 only when the id does not exist.  The authenticated `actorId` is never
consulted. -/
def markNotificationReadHandler (notifs : List Notification)
    (actorId notificationId : Nat) : NotifReadResult :=
  match notifs.find? (fun n => n.id == notificationId) with
  | none => NotifReadResult.notFound
  | some n =>
    let updated := { n with isRead := true }
    NotifReadResult.ok
      (notifs.map (fun m => if m.id == notificationId then updated else m)) updated

/-- Claim C8 as amended: marking a notification read updates exactly the
`isRead` flag to true — every other field of the record is preserved, every
other record is untouched and none is deleted — but the operation succeeds
for every acting user: the handler's result does not depend on the actor,
so the recipient-only restriction in the claim does not hold. -/
theorem markNotificationRead_amended (notifs : List Notification)
    (actorId notificationId : Nat) (n : Notification)
    (hfind : notifs.find? (fun m => m.id == notificationId) = some n) :
    markNotificationReadHandler notifs actorId notificationId
      = NotifReadResult.ok
          (notifs.map (fun m => if m.id == notificationId then { n with isRead := true } else m))
          { n with isRead := true } ∧
    (∀ a2 : Nat, markNotificationReadHandler notifs a2 notificationId
        = markNotificationReadHandler notifs actorId notificationId) ∧
    ({ n with isRead := true } : Notification).id = n.id ∧
    ({ n with isRead := true } : Notification).userId = n.userId ∧
    ({ n with isRead := true } : Notification).message = n.message ∧
    ({ n with isRead := true } : Notification).type = n.type ∧
    ({ n with isRead := true } : Notification).createdAt = n.createdAt ∧
    (notifs.map (fun m => if m.id == notificationId then { n with isRead := true } else m)).length
      = notifs.length := by
  refine ⟨?_, fun a2 => rfl, rfl, rfl, rfl, rfl, rfl, by simp⟩
  rw [markNotificationReadHandler, hfind]

/-- Unread notification whose recipient is user 5. -/
def wNotifOfUser5 : Notification :=
  { id := 1, userId := 5, message := "m", type := "booking",
    isRead := false, createdAt := 0 }

/-- Counterexample to C8 as stated: actor 6 is not the recipient (user 5),
yet the mark-read operation succeeds. -/
theorem markNotificationRead_wrong_actor_succeeds :
    markNotificationReadHandler [wNotifOfUser5] 6 1
      = NotifReadResult.ok [{ wNotifOfUser5 with isRead := true }]
          { wNotifOfUser5 with isRead := true } ∧
    wNotifOfUser5.userId ≠ 6 := by
  decide

/-- Instantiation of the amended C8 at the same store with actor 6. -/
theorem markNotificationRead_amended_witness :
    markNotificationReadHandler [wNotifOfUser5] 6 1
      = NotifReadResult.ok
          ([wNotifOfUser5].map (fun m => if m.id == 1 then { wNotifOfUser5 with isRead := true } else m))
          { wNotifOfUser5 with isRead := true } ∧
    (∀ a2 : Nat, markNotificationReadHandler [wNotifOfUser5] a2 1
        = markNotificationReadHandler [wNotifOfUser5] 6 1) ∧
    ({ wNotifOfUser5 with isRead := true } : Notification).id = wNotifOfUser5.id ∧
    ({ wNotifOfUser5 with isRead := true } : Notification).userId = wNotifOfUser5.userId ∧
    ({ wNotifOfUser5 with isRead := true } : Notification).message = wNotifOfUser5.message ∧
    ({ wNotifOfUser5 with isRead := true } : Notification).type = wNotifOfUser5.type ∧
    ({ wNotifOfUser5 with isRead := true } : Notification).createdAt = wNotifOfUser5.createdAt ∧
    ([wNotifOfUser5].map (fun m => if m.id == 1 then { wNotifOfUser5 with isRead := true } else m)).length
      = [wNotifOfUser5].length :=
  markNotificationRead_amended [wNotifOfUser5] 6 1 wNotifOfUser5 (by decide)

/-- Task-creation loop of `POST /api/shifts`: for each stored template with
`isDefault` true, `storage.createTask({shiftId, name, category})` persists a
task with a fresh id, `isCompleted := false` and `completedAt := null`.
Returns the created tasks and the next fresh task id. -/
def expandTemplates (shiftId : Nat) (templates : List TaskTemplate)
    (nextTaskId : Nat) : List Task × Nat :=
  match templates with
  | [] => ([], nextTaskId)
  | tp :: rest =>
    if tp.isDefault then
      let t : Task := { id := nextTaskId, shiftId := shiftId, name := tp.name,
                        category := tp.category, isCompleted := false, completedAt := none }
      let r := expandTemplates shiftId rest (nextTaskId + 1)
      (t :: r.1, r.2)
    else
      expandTemplates shiftId rest nextTaskId

/-- Store state threaded through the shift routes. -/
structure ShiftSt where
  users : List User
  shifts : List Shift
  tasks : List Task
  templates : List TaskTemplate
  notifications : List Notification
  nextShiftId : Nat
  nextTaskId : Nat
  nextNotificationId : Nat
deriving Repr, DecidableEq

/-- Parsed `insertShiftSchema` value. -/
structure InsertShift where
  employeeId : Nat
  roomId : Nat
  date : Nat
  startTime : Nat
  endTime : Nat
deriving Repr, DecidableEq

/-- Outcome of `POST /api/shifts`: the created shift with its expanded task
set, or the 400 "Invalid employee ID" early return. -/
inductive ShiftResult where
  | ok (st : ShiftSt) (shift : Shift) (createdTasks : List Task)
  | invalidEmployee
deriving Repr, DecidableEq

/-- Handler of `POST /api/shifts`: validate that `employeeId` names a user
with role employee, persist the shift with `isActive := true`, create one
task per stored default template, and notify the employee. -/
def createShiftHandler (st : ShiftSt) (data : InsertShift) (now : Nat) : ShiftResult :=
  match st.users.find? (fun u => u.id == data.employeeId) with
  | none => ShiftResult.invalidEmployee
  | some user =>
    if user.role != "employee" then ShiftResult.invalidEmployee
    else
      let shift : Shift := { id := st.nextShiftId, employeeId := data.employeeId,
                             roomId := data.roomId, date := data.date,
                             startTime := data.startTime, endTime := data.endTime,
                             isActive := true }
      let expansion := expandTemplates shift.id st.templates st.nextTaskId
      let st1 : ShiftSt := { st with shifts := st.shifts ++ [shift],
                                     tasks := st.tasks ++ expansion.1,
                                     nextShiftId := st.nextShiftId + 1,
                                     nextTaskId := expansion.2 }
      let n : Notification :=
        { id := st1.nextNotificationId, userId := data.employeeId,
          message := "You have been assigned a new shift on " ++ toString data.date,
          type := "shift", isRead := false, createdAt := now }
      let st2 : ShiftSt := { st1 with notifications := st1.notifications ++ [n],
                                      nextNotificationId := st1.nextNotificationId + 1 }
      ShiftResult.ok st2 shift expansion.1

/-- Shared helper: the tasks produced by the template-expansion loop copy
name and category from exactly the default templates, in order, and are all
incomplete with a null `completedAt` and the given shift id. -/
theorem expandTemplates_spec (shiftId : Nat) (templates : List TaskTemplate) :
    ∀ nextTaskId : Nat,
      (expandTemplates shiftId templates nextTaskId).1.map (fun t => (t.name, t.category))
        = (templates.filter (fun tp => tp.isDefault)).map (fun tp => (tp.name, tp.category))
      ∧ ∀ t ∈ (expandTemplates shiftId templates nextTaskId).1,
          t.isCompleted = false ∧ t.completedAt = none ∧ t.shiftId = shiftId := by
  induction templates with
  | nil => intro nextTaskId; simp [expandTemplates]
  | cons tp rest ih =>
    intro nextTaskId
    by_cases hd : tp.isDefault = true
    · constructor
      · simp [expandTemplates, hd, (ih (nextTaskId + 1)).1]
      · intro t ht
        simp only [expandTemplates, hd, if_true] at ht
        rcases List.mem_cons.mp ht with h1 | h1
        · subst h1; exact ⟨rfl, rfl, rfl⟩
        · exact (ih (nextTaskId + 1)).2 t h1
    · have hd2 : tp.isDefault = false := by simpa using hd
      constructor
      · simp [expandTemplates, hd2, (ih nextTaskId).1]
      · intro t ht
        simp only [expandTemplates, hd2, if_false] at ht
        exact (ih nextTaskId).2 t ht

/-- Claim C5: every successful `POST /api/shifts` creates exactly one task
per default template — name and category copied from the template, in store
order — and every created task is incomplete with `completedAt = null`,
attached to the new shift. -/
theorem createShift_expands_default_templates (st : ShiftSt) (data : InsertShift)
    (now : Nat) (st2 : ShiftSt) (shift : Shift) (ts : List Task)
    (h : createShiftHandler st data now = ShiftResult.ok st2 shift ts) :
    ts.length = (st.templates.filter (fun tp => tp.isDefault)).length ∧
    ts.map (fun t => (t.name, t.category))
      = (st.templates.filter (fun tp => tp.isDefault)).map (fun tp => (tp.name, tp.category)) ∧
    ∀ t ∈ ts, t.isCompleted = false ∧ t.completedAt = none ∧ t.shiftId = shift.id := by
  rw [createShiftHandler] at h
  split at h
  · exact absurd h (by simp)
  · split at h
    · exact absurd h (by simp)
    · simp only [ShiftResult.ok.injEq] at h
      obtain ⟨-, hshift, hts⟩ := h
      have hspec := expandTemplates_spec st.nextShiftId st.templates st.nextTaskId
      rw [← hts, ← hshift]
      refine ⟨?_, hspec.1, hspec.2⟩
      have := congrArg List.length hspec.1
      simpa using this

/-- Employee user used to instantiate C5. -/
def wEmployee : User :=
  { id := 9, username := "staff", password := "h", email := "staff@test.com",
    phone := none, fullName := "Staff User", role := "employee" }

/-- One default and one non-default template. -/
def wTplDefault : TaskTemplate :=
  { id := 1, name := "Empty trash bins", category := "cleaning", isDefault := true }

/-- Non-default template that must not be instantiated. -/
def wTplExtra : TaskTemplate :=
  { id := 2, name := "Extra", category := "cleaning", isDefault := false }

/-- Store used to instantiate C5. -/
def wShiftSt : ShiftSt :=
  { users := [wEmployee], shifts := [], tasks := [],
    templates := [wTplDefault, wTplExtra], notifications := [],
    nextShiftId := 1, nextTaskId := 1, nextNotificationId := 1 }

/-- Shift request used to instantiate C5. -/
def wInsertShift : InsertShift :=
  { employeeId := 9, roomId := 3, date := 7, startTime := 10, endTime := 20 }

/-- Shift created from `wInsertShift`. -/
def wCreatedShift : Shift :=
  { id := 1, employeeId := 9, roomId := 3, date := 7, startTime := 10,
    endTime := 20, isActive := true }

/-- Task expanded from the default template for `wCreatedShift`. -/
def wExpandedTask : Task :=
  { id := 1, shiftId := 1, name := "Empty trash bins", category := "cleaning",
    isCompleted := false, completedAt := none }

/-- Notification sent to employee 9 for `wCreatedShift`. -/
def wShiftNotif : Notification :=
  { id := 1, userId := 9, message := "You have been assigned a new shift on 7",
    type := "shift", isRead := false, createdAt := 42 }

/-- Store after the successful shift creation below. -/
def wShiftStAfter : ShiftSt :=
  { users := [wEmployee], shifts := [wCreatedShift], tasks := [wExpandedTask],
    templates := [wTplDefault, wTplExtra], notifications := [wShiftNotif],
    nextShiftId := 2, nextTaskId := 2, nextNotificationId := 2 }

/-- Instantiation of C5: with one default template in store, the created
shift gets exactly one incomplete task copied from it. -/
theorem createShift_expands_default_templates_witness :
    [wExpandedTask].length
        = (wShiftSt.templates.filter (fun tp => tp.isDefault)).length ∧
    [wExpandedTask].map (fun t => (t.name, t.category))
      = (wShiftSt.templates.filter (fun tp => tp.isDefault)).map
          (fun tp => (tp.name, tp.category)) ∧
    ∀ t ∈ [wExpandedTask], t.isCompleted = false ∧ t.completedAt = none ∧
      t.shiftId = wCreatedShift.id :=
  createShift_expands_default_templates wShiftSt wInsertShift 42 wShiftStAfter
    wCreatedShift [wExpandedTask] (by decide)

/-- Status whitelist of `PUT /api/bookings/:id/status`. -/
def validStatuses : List String :=
  ["pending", "approved", "rejected", "completed", "cancelled"]

/-- Outcome of `PUT /api/bookings/:id/status`. -/
inductive StatusResult where
  | ok (st : St) (booking : Booking)
  | invalidStatus
  | notFound
deriving Repr, DecidableEq

/-- Handler of `PUT /api/bookings/:id/status`: reject a status outside the
whitelist, 404 an unknown booking id, and otherwise overwrite the booking's
status with the requested value — the current status is never inspected —
and notify the booking's owner. -/
def updateBookingStatusHandler (st : St) (bookingId : Nat) (status : String)
    (now : Nat) : StatusResult :=
  if !(validStatuses.contains status) then StatusResult.invalidStatus
  else
    match st.bookings.find? (fun b => b.id == bookingId) with
    | none => StatusResult.notFound
    | some booking =>
      let updated := { booking with status := status }
      let replaced := st.bookings.map (fun b => if b.id == bookingId then updated else b)
      let st1 : St := { st with bookings := replaced }
      let st2 := addNotification st1 booking.userId
        ("Your booking #" ++ toString booking.id ++ " has been " ++ status) "booking" now
      StatusResult.ok st2 updated

/-- Claim C6 as amended: the status-update route performs no transition
validation.  For every stored booking — whatever its current status,
including the terminal completed/rejected/cancelled — and every requested
status in the whitelist, the update succeeds and sets the booking's status
to the requested value; no InvalidTransition failure exists. -/
theorem updateBookingStatus_no_transition_validation (st : St) (bookingId : Nat)
    (status : String) (now : Nat) (booking : Booking)
    (hfind : st.bookings.find? (fun b => b.id == bookingId) = some booking)
    (hvalid : validStatuses.contains status = true) :
    updateBookingStatusHandler st bookingId status now
      = StatusResult.ok
          (addNotification
            { st with bookings :=
                st.bookings.map (fun b => if b.id == bookingId then { booking with status := status } else b) }
            booking.userId
            ("Your booking #" ++ toString booking.id ++ " has been " ++ status)
            "booking" now)
          { booking with status := status } := by
  rw [updateBookingStatusHandler, hvalid]
  simp only [Bool.not_true, Bool.false_eq_true, if_false, hfind]

/-- Booking in the terminal status `completed`. -/
def wBookingCompleted : Booking :=
  { id := 1, userId := 5, roomId := 3, startTime := 10, endTime := 20,
    status := "completed", qrCode := none, createdAt := 0 }

/-- Store holding only the completed booking. -/
def wStCompleted : St :=
  { users := [], bookings := [wBookingCompleted], notifications := [],
    nextBookingId := 2, nextNotificationId := 1 }

/-- Notification emitted when the completed booking is reopened. -/
def wNotifReopened : Notification :=
  { id := 1, userId := 5, message := "Your booking #1 has been pending",
    type := "booking", isRead := false, createdAt := 9 }

/-- Counterexample to C6 as stated: the booking is in the terminal status
`completed`, yet requesting `pending` succeeds and rewrites the status —
the route never fails with an InvalidTransition error. -/
theorem terminal_booking_status_update_succeeds :
    updateBookingStatusHandler wStCompleted 1 "pending" 9
      = StatusResult.ok
          { users := [], bookings := [{ wBookingCompleted with status := "pending" }],
            notifications := [wNotifReopened], nextBookingId := 2, nextNotificationId := 2 }
          { wBookingCompleted with status := "pending" } ∧
    wBookingCompleted.status = "completed" := by
  decide

/-- Notification emitted when the completed booking is re-approved. -/
def wNotifReapproved : Notification :=
  { id := 1, userId := 5, message := "Your booking #1 has been approved",
    type := "booking", isRead := false, createdAt := 9 }

/-- Instantiation of the amended C6 at the completed booking. -/
theorem updateBookingStatus_no_transition_validation_witness :
    updateBookingStatusHandler wStCompleted 1 "approved" 9
      = StatusResult.ok
          { users := [], bookings := [{ wBookingCompleted with status := "approved" }],
            notifications := [wNotifReapproved], nextBookingId := 2, nextNotificationId := 2 }
          { wBookingCompleted with status := "approved" } :=
  (updateBookingStatus_no_transition_validation wStCompleted 1 "approved" 9
    wBookingCompleted (by decide) (by decide)).trans (by decide)

/-- UTC calendar day of an epoch-millisecond timestamp, as produced by
`new Date(t).toISOString().split('T')[0]` in the status-change trigger. -/
def datePart (t : Nat) : Nat := t / 86400000

/-- Notification document written by the Firestore triggers: recipient,
rendered message and type (`isRead` is always false and `createdAt` is the
server timestamp, so both are left out of the event model). -/
structure NotifOut where
  userId : Nat
  message : String
  type : String
deriving Repr, DecidableEq

/-- Owner notification of the status-change trigger. -/
def bookingOwnerStatusNotif (b : Booking) : NotifOut :=
  { userId := b.userId,
    message := "Your booking #" ++ toString b.id ++ " has been " ++ b.status,
    type := "booking" }

/-- Per-shift notification of the approval branch. -/
def approvedShiftNotif (b : Booking) (sh : Shift) : NotifOut :=
  { userId := sh.employeeId,
    message := "New booking approved for room " ++ toString b.roomId ++
      " during your shift on " ++ toString (datePart b.startTime),
    type := "shift" }

/-- In-loop check of the approval branch: the booking's start instant lies
in the shift's half-open window `[startTime, endTime)`. -/
def shiftCoversBookingStart (b : Booking) (sh : Shift) : Bool :=
  decide (sh.startTime ≤ b.startTime) && decide (b.startTime < sh.endTime)

/-- Combined condition under which a shift's employee is notified on
approval: the Firestore query (`roomId ==` and `date ==` the booking's
start date) conjoined with the in-loop window check. -/
def shiftMatchesApprovedBooking (b : Booking) (sh : Shift) : Bool :=
  sh.roomId == b.roomId && sh.date == datePart b.startTime
    && shiftCoversBookingStart b sh

/-- Firestore trigger `onBookingStatusChange`: when the status changed,
write the owner notification; when the new status is `approved`, also query
the shifts on the booking's room and start date and notify the employee of
every shift whose window contains the booking's start. -/
def onBookingStatusChange (oldStatus : String) (b : Booking)
    (shifts : List Shift) : List NotifOut :=
  if b.status == oldStatus then []
  else
    let ownerNotif := bookingOwnerStatusNotif b
    if b.status == "approved" then
      let queried := shifts.filter
        (fun sh => sh.roomId == b.roomId && sh.date == datePart b.startTime)
      ownerNotif :: queried.foldr
        (fun sh acc => if shiftCoversBookingStart b sh then approvedShiftNotif b sh :: acc
          else acc) []
    else [ownerNotif]

/-- Shared helper: the approval loop over the queried shifts emits exactly
one notification per fully matching shift, in order. -/
theorem approvalLoop_eq_filter_map (b : Booking) (shifts : List Shift) :
    (shifts.filter
        (fun sh => sh.roomId == b.roomId && sh.date == datePart b.startTime)).foldr
      (fun sh acc => if shiftCoversBookingStart b sh then approvedShiftNotif b sh :: acc
        else acc) []
      = (shifts.filter (shiftMatchesApprovedBooking b)).map (approvedShiftNotif b) := by
  induction shifts with
  | nil => rfl
  | cons sh rest ih =>
    simp only [List.filter_cons]
    by_cases hq : (sh.roomId == b.roomId && sh.date == datePart b.startTime) = true
    · by_cases hc : shiftCoversBookingStart b sh = true
      · simp [shiftMatchesApprovedBooking, hq, hc, ih]
      · have hc2 : shiftCoversBookingStart b sh = false := by simpa using hc
        simp [shiftMatchesApprovedBooking, hq, hc2, ih]
    · have hq2 : (sh.roomId == b.roomId && sh.date == datePart b.startTime) = false := by
        simpa using hq
      have hm : shiftMatchesApprovedBooking b sh = false := by
        simp only [shiftMatchesApprovedBooking, hq2, Bool.false_and]
      simp [hq2, hm, ih]

/-- Claim C7: on a status change to `approved`, the trigger emits the owner
notification followed by exactly one `"shift"`-type notification addressed
to the employee of each shift on the booking's room whose date equals the
booking's start date and whose `[startTime, endTime)` window contains the
booking's start time — and nothing else (zero shift notifications when no
shift matches). -/
theorem approval_notifies_covering_shift_employees (oldStatus : String)
    (b : Booking) (shifts : List Shift)
    (hchanged : b.status ≠ oldStatus) (happroved : b.status = "approved") :
    onBookingStatusChange oldStatus b shifts
      = bookingOwnerStatusNotif b
          :: (shifts.filter (shiftMatchesApprovedBooking b)).map (approvedShiftNotif b) ∧
    ∀ sh : Shift, (approvedShiftNotif b sh).userId = sh.employeeId ∧
      (approvedShiftNotif b sh).type = "shift" := by
  refine ⟨?_, fun sh => ⟨rfl, rfl⟩⟩
  rw [onBookingStatusChange]
  have hne : (b.status == oldStatus) = false := by
    simpa using hchanged
  rw [hne]
  simp only [Bool.false_eq_true, if_false, happroved]
  rw [if_pos (by rfl)]
  rw [approvalLoop_eq_filter_map]

/-- Booking for room 3 starting inside day 0 at time 10, just approved. -/
def wBookingApproved : Booking :=
  { id := 1, userId := 2, roomId := 3, startTime := 10, endTime := 20,
    status := "approved", qrCode := none, createdAt := 0 }

/-- Shift on room 3 and day 0 covering time 10. -/
def wShiftCovering : Shift :=
  { id := 6, employeeId := 9, roomId := 3, date := 0, startTime := 5,
    endTime := 15, isActive := true }

/-- Shift on room 3 and day 0 whose window misses time 10. -/
def wShiftMissing : Shift :=
  { id := 7, employeeId := 11, roomId := 3, date := 0, startTime := 15,
    endTime := 25, isActive := true }

/-- Instantiation of C7: with one covering and one non-covering shift, the
trigger notifies the owner and exactly the covering shift's employee. -/
theorem approval_notifies_covering_shift_employees_witness :
    onBookingStatusChange "pending" wBookingApproved [wShiftCovering, wShiftMissing]
      = bookingOwnerStatusNotif wBookingApproved
          :: (([wShiftCovering, wShiftMissing] : List Shift).filter
                (shiftMatchesApprovedBooking wBookingApproved)).map
              (approvedShiftNotif wBookingApproved) ∧
    ∀ sh : Shift, (approvedShiftNotif wBookingApproved sh).userId = sh.employeeId ∧
      (approvedShiftNotif wBookingApproved sh).type = "shift" :=
  approval_notifies_covering_shift_employees "pending" wBookingApproved
    [wShiftCovering, wShiftMissing] (by decide) (by decide)

/-- Raw body of `POST /api/task-templates`: the client may supply an
`isDefault` flag. -/
structure TemplateBody where
  name : String
  category : String
  isDefault : Option Bool
deriving Repr, DecidableEq

/-- Parsed `insertTaskTemplateSchema` value: the schema omits `id` and
`isDefault`, so a supplied `isDefault` is stripped by the parse. -/
structure InsertTaskTemplate where
  name : String
  category : String
deriving Repr, DecidableEq

/-- `insertTaskTemplateSchema.parse(req.body)`. -/
def parseInsertTaskTemplate (body : TemplateBody) : InsertTaskTemplate :=
  { name := body.name, category := body.category }

/-- `storage.createTaskTemplate` (identical in `MemStorage` and
`DatabaseStorage`): persists `{...taskTemplate, id, isDefault: false}`,
forcing `isDefault` to false.  Returns the grown store, the next fresh id
and the created template. -/
def createTaskTemplateOp (templates : List TaskTemplate) (nextId : Nat)
    (data : InsertTaskTemplate) : List TaskTemplate × Nat × TaskTemplate :=
  let newTemplate : TaskTemplate :=
    { id := nextId, name := data.name, category := data.category, isDefault := false }
  (templates ++ [newTemplate], nextId + 1, newTemplate)

/-- Effect on the template store of any sequence of
`POST /api/task-templates` requests. -/
def runCreateTaskTemplates (templates : List TaskTemplate) (nextId : Nat)
    (bodies : List TemplateBody) : List TaskTemplate × Nat :=
  match bodies with
  | [] => (templates, nextId)
  | body :: rest =>
    let r := createTaskTemplateOp templates nextId (parseInsertTaskTemplate body)
    runCreateTaskTemplates r.1 r.2.1 rest

/-- Shared helper: any template that is a default after a sequence of
template-creation requests was already in the store before them. -/
theorem runCreateTaskTemplates_default_mem :
    ∀ (bodies : List TemplateBody) (templates : List TaskTemplate) (nextId : Nat)
      (tp : TaskTemplate),
      tp ∈ (runCreateTaskTemplates templates nextId bodies).1 →
      tp.isDefault = true → tp ∈ templates := by
  intro bodies
  induction bodies with
  | nil =>
    intro templates nextId tp h _
    simpa [runCreateTaskTemplates] using h
  | cons body rest ih =>
    intro templates nextId tp h hd
    have h2 := ih _ _ tp (by simpa [runCreateTaskTemplates] using h) hd
    rcases List.mem_append.mp h2 with h3 | h3
    · exact h3
    · rw [List.mem_singleton] at h3
      rw [h3] at hd
      simp [createTaskTemplateOp] at hd

/-- Claim C9: a template created through `POST /api/task-templates` is
persisted with `isDefault = false` whatever the request supplied — the
parse strips the flag and the storage layer forces it to false — so after
any sequence of template-creation requests, every default template in the
store was already there (i.e. only the seeded templates are defaults). -/
theorem createTaskTemplate_never_default (templates : List TaskTemplate)
    (nextId : Nat) (body : TemplateBody) (bodies : List TemplateBody) :
    (createTaskTemplateOp templates nextId (parseInsertTaskTemplate body)).2.2.isDefault
        = false ∧
    (∀ v : Option Bool,
      parseInsertTaskTemplate { body with isDefault := v } = parseInsertTaskTemplate body) ∧
    ∀ tp ∈ (runCreateTaskTemplates templates nextId bodies).1,
      tp.isDefault = true → tp ∈ templates := by
  exact ⟨rfl, fun v => rfl, fun tp => runCreateTaskTemplates_default_mem bodies templates nextId tp⟩

/-- Seeded default template used to instantiate C9. -/
def wSeedTemplate : TaskTemplate :=
  { id := 1, name := "Wipe down all surfaces", category := "cleaning", isDefault := true }

/-- Request that tries to create a default template. -/
def wTemplateBody : TemplateBody :=
  { name := "Totally a default", category := "cleaning", isDefault := some true }

/-- Instantiation of C9 at a seeded store and a request that claims
`isDefault: true`. -/
theorem createTaskTemplate_never_default_witness :
    (createTaskTemplateOp [wSeedTemplate] 2 (parseInsertTaskTemplate wTemplateBody)).2.2.isDefault
        = false ∧
    (∀ v : Option Bool,
      parseInsertTaskTemplate { wTemplateBody with isDefault := v }
        = parseInsertTaskTemplate wTemplateBody) ∧
    ∀ tp ∈ (runCreateTaskTemplates [wSeedTemplate] 2 [wTemplateBody]).1,
      tp.isDefault = true → tp ∈ [wSeedTemplate] :=
  createTaskTemplate_never_default [wSeedTemplate] 2 wTemplateBody [wTemplateBody]

end Mgmt
